import Mathlib

/-!
# Verification of the Tennis dashboard core (`src/Tennis_game.py`)

Shallow embedding of the data-loading, joining, filter-state and
filter/top-N logic of the Streamlit dashboard, together with theorems
settling the specification claims about it.

Conventions of the embedding:
* a pandas `DataFrame` holding rows of a fixed schema is a `List` of a
  structure with that schema; a nullable column is an `Option` field;
* `pd.merge(l, r, on=key, how="left")` is `pdMergeLeft`: for each left
  row, all right rows with an equal key (in right order), or a single
  null-filled row when none matches;
* the source guards every merge with emptiness checks
  (`Tennis_game.py` lines 67-80); `joinLeft` includes that guard;
* `sort_values("rank")` is modelled as a concrete deterministic sort
  (insertion sort) by the `rank` column, ascending with nulls last
  (pandas default `na_position='last'`); the source leaves pandas at
  its default sort kind (`quicksort`), which pandas documents as not
  stable, so the relative order of equal-rank rows in the model is a
  modelling choice and no theorem here relies on it as a property of
  the program;
* Streamlit session state (`filters_applied`, `submitted_country`,
  `submitted_category`) is the `FilterState` structure; Python
  truthiness of the stored optional strings (line 159/163) is
  `optTruthy`;
* the database boundary is `DbEnv`: a connection flag plus one
  `Except`-valued result per fixed query, and `fetch_table` collapses
  failures to the empty table exactly as lines 24-45 do.
-/

namespace Tennis

/-- A competitor row (`competitors` table): id, name, nullable country. -/
structure Competitor where
  competitor_id : Nat
  name : String
  country : Option String
deriving DecidableEq, Repr

/-- A ranking row (`competitor_rankings` table): foreign key to
competitor, nullable numeric rank (lower is better), points. -/
structure Ranking where
  competitor_id : Nat
  rank : Option Nat
  points : Int
deriving DecidableEq, Repr

/-- A complex row (`complexes` table). -/
structure Complex where
  complex_id : Nat
  complex_name : String
deriving DecidableEq, Repr

/-- A venue row (`venues` table): foreign key to complex. -/
structure Venue where
  venue_id : Nat
  complex_id : Nat
  venue_name : String
deriving DecidableEq, Repr

/-- A category row (`categories` table). -/
structure Category where
  category_id : Nat
  category_name : String
deriving DecidableEq, Repr

/-- A competition row (`competitions` table): foreign key to category. -/
structure Competition where
  competition_id : Nat
  category_id : Nat
  competition_name : String
deriving DecidableEq, Repr

/-- A row of the `df_merged` view: a ranking row together with the
matched competitor (or `none` when the left join found no match, in
which case all competitor-derived columns are null). -/
abbrev RankedRow := Ranking × Option Competitor

/-- A row of the `venue_info` view. -/
abbrev VenueRow := Venue × Option Complex

/-- A row of the `comp_info` view. -/
abbrev CompRow := Competition × Option Category

/-- The `country` column of a merged `df_merged` row: null when the
join null-filled the competitor side or the competitor country is null. -/
def rowCountry (r : RankedRow) : Option String :=
  r.2.bind Competitor.country

/-- The `category_name` column of a merged `comp_info` row: null when
the join null-filled the category side. -/
def rowCategoryName (r : CompRow) : Option String :=
  r.2.map Category.category_name

/-! ## Join Engine (`pd.merge(..., how="left")`, lines 67-80) -/

/-- The right-hand matches contributed to the output for one left row of
a pandas left merge: every right row whose key equals `k` (in right
order), or a single null when no right row matches. -/
def mergeMatches {β K : Type} [DecidableEq K] (rk : β → K) (rs : List β) (k : K) :
    List (Option β) :=
  if (rs.filter (fun b => decide (rk b = k))).isEmpty then [none]
  else (rs.filter (fun b => decide (rk b = k))).map some

/-- `pd.merge(ls, rs, on=key, how="left")`: each left row paired with
each of its matches (one null-filled row when there is none), output in
left-row order. -/
def pdMergeLeft {α β K : Type} [DecidableEq K] (ls : List α) (rs : List β)
    (lk : α → K) (rk : β → K) : List (α × Option β) :=
  ls.flatMap (fun a => (mergeMatches rk rs (lk a)).map (fun ob => (a, ob)))

/-- The repository's join step: the merge is guarded by emptiness checks
on both inputs (`Tennis_game.py` lines 67-80); when either input is
empty the result is the empty frame and the merge is not attempted. -/
def joinLeft {α β K : Type} [DecidableEq K] (ls : List α) (rs : List β)
    (lk : α → K) (rk : β → K) : List (α × Option β) :=
  if ls.isEmpty || rs.isEmpty then [] else pdMergeLeft ls rs lk rk

/-! ## Filter State (session state, lines 49-52, 130-143) -/

/-- The session-scoped filter state: `st.session_state.filters_applied`,
`st.session_state.submitted_country`, `st.session_state.submitted_category`. -/
structure FilterState where
  filters_applied : Bool
  submitted_country : Option String
  submitted_category : Option String
deriving DecidableEq, Repr

/-- The initial session state (lines 49-52). -/
def initState : FilterState :=
  { filters_applied := false, submitted_country := none, submitted_category := none }

/-- The "Apply Filters" transition (lines 130-134): sets
`filters_applied` and stores both selected values verbatim. -/
def applyFilters (selected_country selected_category : Option String)
    (_ : FilterState) : FilterState :=
  { filters_applied := true
    submitted_country := selected_country
    submitted_category := selected_category }

/-- The "Clear Filters" transition (lines 139-142): resets all three
fields to their defaults. -/
def clearFilters (_ : FilterState) : FilterState :=
  { filters_applied := false, submitted_country := none, submitted_category := none }

/-! ## Filter Engine (lines 158-164) -/

/-- Python truthiness of a stored optional string: `None` and the empty
string are falsy (the guards on lines 159 and 163 test the raw value). -/
def optTruthy : Option String → Bool
  | none => false
  | some s => decide (s ≠ "")

/-- Lines 158-160: start from a copy of `df_merged`; only when the
filters are applied, the stored country is truthy and the frame is
non-empty, keep exactly the rows whose `country` column equals the
stored value. -/
def filterByCountry (rows : List RankedRow) (s : FilterState) : List RankedRow :=
  if s.filters_applied && optTruthy s.submitted_country && !rows.isEmpty then
    rows.filter (fun r => decide (rowCountry r = s.submitted_country))
  else rows

/-- Lines 162-164: the same for `comp_info` and the stored category,
compared against the `category_name` column. -/
def filterByCategory (rows : List CompRow) (s : FilterState) : List CompRow :=
  if s.filters_applied && optTruthy s.submitted_category && !rows.isEmpty then
    rows.filter (fun r => decide (rowCategoryName r = s.submitted_category))
  else rows

/-! ## Top-N selector (lines 177-178) -/

/-- Ascending order on the nullable `rank` column with nulls sorting
last (pandas default `na_position='last'`). -/
def nullsLastLE : Option Nat → Option Nat → Bool
  | some a, some b => decide (a ≤ b)
  | _, none => true
  | none, some _ => false

/-- The row order used by `sort_values("rank")`. -/
def rankLE (x y : RankedRow) : Prop :=
  nullsLastLE x.1.rank y.1.rank = true

instance : DecidableRel rankLE := fun x y => by
  unfold rankLE; infer_instance

instance : IsTotal RankedRow rankLE := by
  constructor
  intro x y
  unfold rankLE nullsLastLE
  rcases x.1.rank with _ | a <;> rcases y.1.rank with _ | b
  all_goals simp
  all_goals omega

instance : IsTrans RankedRow rankLE := by
  constructor
  intro x y z
  unfold rankLE nullsLastLE
  rcases x.1.rank with _ | a <;> rcases y.1.rank with _ | b <;>
    rcases z.1.rank with _ | c
  all_goals simp
  all_goals omega

/-- `df.sort_values("rank")`: the rows reordered ascending by `rank`
with nulls last. The source calls pandas with its default sort kind
(`quicksort`), which pandas documents as not stable; the embedding has
to pick a concrete algorithm to stay executable and uses insertion
sort. Where equal ranks occur, the resulting order is therefore a
choice of the model, not a guarantee of the program. -/
def sort_values (df : List RankedRow) : List RankedRow :=
  List.insertionSort rankLE df

/-- `df_merged.sort_values("rank").head(n)` (line 178; `n = 10` there). -/
def topN (df : List RankedRow) (n : Nat) : List RankedRow :=
  (sort_values df).take n

/-! ## Data Access Layer (lines 24-45) and load (lines 57-86) -/

/-- The database boundary for one render: whether the connection was
established, and the outcome (rows, or a query error) of each of the six
fixed queries. -/
structure DbEnv where
  connOk : Bool
  qCompetitors : Except String (List Competitor)
  qRankings : Except String (List Ranking)
  qComplexes : Except String (List Complex)
  qVenues : Except String (List Venue)
  qCategory : Except String (List Category)
  qCompetition : Except String (List Competition)

/-- `fetch_table` (lines 24-45): with no connection, the empty frame;
with a connection, the query's rows, or the empty frame when the query
raised. It never propagates an exception. -/
def fetch_table {ρ : Type} (connOk : Bool) (res : Except String (List ρ)) : List ρ :=
  if connOk then
    match res with
    | .ok rows => rows
    | .error _ => []
  else []

/-- The frames the load section (lines 57-86) leaves in scope. -/
structure Frames where
  df_competitors : List Competitor
  df_rankings : List Ranking
  df_complexes : List Complex
  df_venues : List Venue
  df_category : List Category
  df_competition : List Competition
  df_merged : List RankedRow
  venue_info : List VenueRow
  comp_info : List CompRow
deriving Repr

/-- Lines 57-86: when the connection is up, fetch the six tables and
build the three guarded left joins; when it failed, every frame is
assigned the empty frame. -/
def loadData (env : DbEnv) : Frames :=
  if env.connOk then
    let df_competitors := fetch_table env.connOk env.qCompetitors
    let df_rankings := fetch_table env.connOk env.qRankings
    let df_complexes := fetch_table env.connOk env.qComplexes
    let df_venues := fetch_table env.connOk env.qVenues
    let df_category := fetch_table env.connOk env.qCategory
    let df_competition := fetch_table env.connOk env.qCompetition
    { df_competitors := df_competitors
      df_rankings := df_rankings
      df_complexes := df_complexes
      df_venues := df_venues
      df_category := df_category
      df_competition := df_competition
      df_merged := joinLeft df_rankings df_competitors
        Ranking.competitor_id Competitor.competitor_id
      venue_info := joinLeft df_venues df_complexes
        Venue.complex_id Complex.complex_id
      comp_info := joinLeft df_competition df_category
        Competition.category_id Category.category_id }
  else
    { df_competitors := [], df_rankings := [], df_complexes := []
      df_venues := [], df_category := [], df_competition := []
      df_merged := [], venue_info := [], comp_info := [] }

/-! ## Render outputs (lines 158-190) -/

/-- The four tabular results handed to the presentation layer. -/
structure RenderOut where
  filtered_df : List RankedRow
  top10 : List RankedRow
  venue_info : List VenueRow
  filtered_comp : List CompRow
deriving Repr

/-- One render cycle after loading: the filtered rankings view, the
top-10 over the unfiltered `df_merged` (line 178), the unfiltered venue
view, and the filtered competition view. -/
def renderOutputs (f : Frames) (s : FilterState) : RenderOut :=
  { filtered_df := filterByCountry f.df_merged s
    top10 := topN f.df_merged 10
    venue_info := f.venue_info
    filtered_comp := filterByCategory f.comp_info s }

/-! ## Sample data used by witnesses -/

/-- Sample competitor from France. -/
def sampleCompetitor1 : Competitor := ⟨1, "Alice", some "France"⟩

/-- Sample competitor from Spain. -/
def sampleCompetitor2 : Competitor := ⟨2, "Bob", some "Spain"⟩

/-- Sample ranking row for competitor 1. -/
def sampleRanking1 : Ranking := ⟨1, some 1, 100⟩

/-- Sample ranking row for competitor 2. -/
def sampleRanking2 : Ranking := ⟨2, some 2, 90⟩

/-- A small merged rankings view. -/
def sampleRows : List RankedRow :=
  [(sampleRanking1, some sampleCompetitor1), (sampleRanking2, some sampleCompetitor2)]

/-- A small merged competitions view. -/
def sampleComps : List CompRow :=
  [(⟨1, 1, "Open"⟩, some ⟨1, "ATP"⟩)]

/-- A filter state applied with a country but no category — the
spec's own apply("France", None) scenario. -/
def franceOnlyState : FilterState := ⟨true, some "France", none⟩

/-- A filter state that was applied with an empty-string country. -/
def emptyStrState : FilterState := ⟨true, some "", none⟩

/-- A database environment whose connection failed. -/
def deadEnv : DbEnv :=
  ⟨false, .ok [sampleCompetitor1], .error "down", .ok [], .ok [], .ok [], .ok []⟩

/-! ## Helper lemmas about the Filter Engine -/

/-- When the filters are applied and the stored country is truthy, the
country filter is exactly a `List.filter` by equality with the stored
value (also when the input is empty: both sides are then empty). -/
theorem filterByCountry_applied (s : FilterState) (rows : List RankedRow)
    (hA : s.filters_applied = true) (hc : optTruthy s.submitted_country = true) :
    filterByCountry rows s
      = rows.filter (fun r => decide (rowCountry r = s.submitted_country)) := by
  rcases rows with _ | ⟨a, l⟩
  · simp [filterByCountry]
  · simp [filterByCountry, hA, hc]

/-- When the filters are not applied, or the stored country is falsy, or
the input is empty, the country filter is the identity. -/
theorem filterByCountry_passthrough (s : FilterState) (rows : List RankedRow)
    (h : s.filters_applied = false ∨ optTruthy s.submitted_country = false ∨ rows = []) :
    filterByCountry rows s = rows := by
  rcases h with h | h | h <;> simp [filterByCountry, h]

/-- Category analogue of `filterByCountry_applied`. -/
theorem filterByCategory_applied (s : FilterState) (rows : List CompRow)
    (hA : s.filters_applied = true) (hc : optTruthy s.submitted_category = true) :
    filterByCategory rows s
      = rows.filter (fun r => decide (rowCategoryName r = s.submitted_category)) := by
  rcases rows with _ | ⟨a, l⟩
  · simp [filterByCategory]
  · simp [filterByCategory, hA, hc]

/-- Category analogue of `filterByCountry_passthrough`. -/
theorem filterByCategory_passthrough (s : FilterState) (rows : List CompRow)
    (h : s.filters_applied = false ∨ optTruthy s.submitted_category = false ∨ rows = []) :
    filterByCategory rows s = rows := by
  rcases h with h | h | h <;> simp [filterByCategory, h]

/-! ## Claim theorems -/

/-- C2: for every row list and every `FilterState`, if `filters_applied`
is false, or the relevant stored field is absent (falsy), or the input is
empty, the filter operation returns its input unchanged, regardless of
the other stored values. -/
theorem c2_identity_passthrough (s : FilterState) :
    (∀ rows : List RankedRow,
      s.filters_applied = false ∨ optTruthy s.submitted_country = false ∨ rows = [] →
        filterByCountry rows s = rows)
    ∧ (∀ comps : List CompRow,
      s.filters_applied = false ∨ optTruthy s.submitted_category = false ∨ comps = [] →
        filterByCategory comps s = comps) :=
  ⟨fun rows h => filterByCountry_passthrough s rows h,
   fun comps h => filterByCategory_passthrough s comps h⟩

/-- Witness for C2 at a concrete state and row list. -/
theorem c2_identity_passthrough_witness :
    initState.filters_applied = false ∧ filterByCountry sampleRows initState = sampleRows :=
  ⟨rfl, (c2_identity_passthrough initState).1 sampleRows (Or.inl rfl)⟩

/-- C9: `applyFilters` sets `filters_applied` and stores both submitted
values verbatim; `clearFilters` resets all three fields to their
defaults; consequently after applying ("France", "ATP") the country
filter keeps exactly the rows whose country equals "France", and after a
subsequent clear the same call returns the full input unchanged. -/
theorem c9_apply_clear_transitions (s t : FilterState) (c k : Option String)
    (rows : List RankedRow) :
    (applyFilters c k s).filters_applied = true
    ∧ (applyFilters c k s).submitted_country = c
    ∧ (applyFilters c k s).submitted_category = k
    ∧ clearFilters t = initState
    ∧ filterByCountry rows (applyFilters (some "France") (some "ATP") s)
        = rows.filter (fun r => decide (rowCountry r = some "France"))
    ∧ filterByCountry rows (clearFilters t) = rows := by
  refine ⟨rfl, rfl, rfl, rfl, ?_, ?_⟩
  · exact filterByCountry_applied (applyFilters (some "France") (some "ATP") s) rows rfl
      (show optTruthy (some "France") = true by decide)
  · exact filterByCountry_passthrough _ rows (Or.inl rfl)

/-- C10: when the filters are applied but the stored country (resp.
category) is falsy — `None` or the empty string — the filter is the
identity: the empty string is treated as an absent value, not matched
against the column. -/
theorem c10_falsy_value_passthrough (s : FilterState) (rows : List RankedRow)
    (comps : List CompRow) (_hA : s.filters_applied = true) :
    (s.submitted_country = none ∨ s.submitted_country = some "" →
      filterByCountry rows s = rows)
    ∧ (s.submitted_category = none ∨ s.submitted_category = some "" →
      filterByCategory comps s = comps) := by
  constructor
  · intro h
    refine filterByCountry_passthrough s rows (Or.inr (Or.inl ?_))
    rcases h with h | h <;> simp [optTruthy, h]
  · intro h
    refine filterByCategory_passthrough s comps (Or.inr (Or.inl ?_))
    rcases h with h | h <;> simp [optTruthy, h]

/-- Witness for C10: an applied state storing the empty-string country
leaves a concrete row list untouched. -/
theorem c10_falsy_value_passthrough_witness :
    emptyStrState.filters_applied = true
    ∧ filterByCountry sampleRows emptyStrState = sampleRows :=
  ⟨rfl, (c10_falsy_value_passthrough emptyStrState sampleRows sampleComps rfl).1
    (Or.inr rfl)⟩

/-- C7: the top-10 component of the render output is the same for every
pair of filter states (hence after any sequence of apply/clear actions):
it is always `topN` of the unfiltered `df_merged`. -/
theorem c7_top10_independent_of_filters (f : Frames) (s1 s2 : FilterState) :
    (renderOutputs f s1).top10 = (renderOutputs f s2).top10
    ∧ (renderOutputs f s1).top10 = topN f.df_merged 10 :=
  ⟨rfl, rfl⟩

/-- C4 counterexample: the claim says a left join of a non-empty left
with an empty right yields the left rows null-filled; the code's guard
returns the empty frame instead. -/
theorem c4_join_empty_counterexample :
    joinLeft [(5 : Nat)] ([] : List Nat) id id ≠ [((5 : Nat), (none : Option Nat))] := by
  decide

/-- C4 amended: `joinLeft` with an empty left input is empty, and with an
empty right input is also empty — the emptiness guard returns an empty
result in both directions instead of null-filling. -/
theorem c4_join_with_empty_side (α β K : Type) [DecidableEq K]
    (ls : List α) (rs : List β) (lk : α → K) (rk : β → K) :
    joinLeft ([] : List α) rs lk rk = [] ∧ joinLeft ls ([] : List β) lk rk = [] := by
  constructor <;> simp [joinLeft]

/-- C5: whenever either side of the join is empty the result is empty
(the merge is not attempted), and the downstream consumers — the two
filters and the top-N selector — accept the empty input as a first-class
value, returning an empty result rather than failing. -/
theorem c5_empty_input_first_class :
    (∀ (α β K : Type) [DecidableEq K] (ls : List α) (rs : List β)
      (lk : α → K) (rk : β → K), ls = [] ∨ rs = [] → joinLeft ls rs lk rk = [])
    ∧ (∀ s : FilterState, filterByCountry [] s = [] ∧ filterByCategory [] s = [])
    ∧ (∀ n : Nat, topN [] n = []) := by
  refine ⟨?_, ?_, ?_⟩
  · intro α β K inst ls rs lk rk h
    rcases h with h | h <;> subst h <;> simp [joinLeft]
  · intro s
    exact ⟨filterByCountry_passthrough s [] (Or.inr (Or.inr rfl)),
      filterByCategory_passthrough s [] (Or.inr (Or.inr rfl))⟩
  · intro n
    simp [topN, sort_values, List.insertionSort]

/-- Witness for C5: a concrete join against an empty right side. -/
theorem c5_empty_input_first_class_witness :
    joinLeft ([] : List Ranking) [sampleCompetitor1]
      Ranking.competitor_id Competitor.competitor_id = [] :=
  c5_empty_input_first_class.1 Ranking Competitor Nat []
    [sampleCompetitor1] Ranking.competitor_id Competitor.competitor_id (Or.inl rfl)

/-- C1: when the filters are applied, each filter depends only on its
own stored value: whenever the stored country (resp. category) is a
present (truthy) value — whatever the other stored value is — the
filter returns exactly the rows whose `country` (resp. `category_name`)
column equals the stored value under exact, case-sensitive string
equality, in input order (the result is a `List.filter`, hence a
sublist of the input, and the input itself is untouched); a value
matching no row yields the empty result rather than an error. -/
theorem c1_exact_filter (s : FilterState) (rows : List RankedRow) (comps : List CompRow)
    (hA : s.filters_applied = true) :
    (optTruthy s.submitted_country = true →
      filterByCountry rows s
        = rows.filter (fun r => decide (rowCountry r = s.submitted_country))
      ∧ (filterByCountry rows s).Sublist rows
      ∧ ((∀ r ∈ rows, rowCountry r ≠ s.submitted_country) → filterByCountry rows s = []))
    ∧ (optTruthy s.submitted_category = true →
      filterByCategory comps s
        = comps.filter (fun r => decide (rowCategoryName r = s.submitted_category))
      ∧ (filterByCategory comps s).Sublist comps
      ∧ ((∀ r ∈ comps, rowCategoryName r ≠ s.submitted_category) →
          filterByCategory comps s = [])) := by
  constructor
  · intro hc
    have h1 := filterByCountry_applied s rows hA hc
    refine ⟨h1, ?_, ?_⟩
    · rw [h1]
      exact List.filter_sublist rows
    · intro h
      rw [h1, List.filter_eq_nil_iff]
      intro r hr
      simpa using h r hr
  · intro hk
    have h2 := filterByCategory_applied s comps hA hk
    refine ⟨h2, ?_, ?_⟩
    · rw [h2]
      exact List.filter_sublist comps
    · intro h
      rw [h2, List.filter_eq_nil_iff]
      intro r hr
      simpa using h r hr

/-- Witness for C1 at a concrete state that stores a country but no
category: the country conclusion holds with the category absent. -/
theorem c1_exact_filter_witness :
    franceOnlyState.filters_applied = true
    ∧ optTruthy franceOnlyState.submitted_country = true
    ∧ franceOnlyState.submitted_category = none
    ∧ filterByCountry sampleRows franceOnlyState
        = sampleRows.filter (fun r => decide (rowCountry r = franceOnlyState.submitted_country)) :=
  ⟨rfl, by decide, rfl,
    ((c1_exact_filter franceOnlyState sampleRows sampleComps rfl).1 (by decide)).1⟩

/-- C8: the data-access boundary never propagates a failure: with no
connection `fetch_table` returns the empty table for any query outcome,
a query error also yields the empty table, and when the connection
failed to initialize every loaded frame — the three derived views
included — is empty. (All embedded functions are total, so no exception
can reach the presentation layer.) -/
theorem c8_fetch_never_raises :
    (∀ (ρ : Type) (res : Except String (List ρ)), fetch_table false res = [])
    ∧ (∀ (ρ : Type) (e : String),
        fetch_table true (Except.error e : Except String (List ρ)) = [])
    ∧ (∀ env : DbEnv, env.connOk = false →
        (loadData env).df_merged = [] ∧ (loadData env).venue_info = []
        ∧ (loadData env).comp_info = [] ∧ (loadData env).df_competitors = []
        ∧ (loadData env).df_rankings = [] ∧ (loadData env).df_complexes = []
        ∧ (loadData env).df_venues = [] ∧ (loadData env).df_category = []
        ∧ (loadData env).df_competition = []) := by
  refine ⟨fun ρ res => rfl, fun ρ e => rfl, fun env h => ?_⟩
  simp [loadData, h]

/-- Witness for C8 on a concrete failed environment. -/
theorem c8_fetch_never_raises_witness :
    deadEnv.connOk = false
    ∧ fetch_table true (Except.error "down" : Except String (List Ranking)) = []
    ∧ (loadData deadEnv).df_merged = [] :=
  ⟨rfl, c8_fetch_never_raises.2.1 Ranking "down",
    (c8_fetch_never_raises.2.2 deadEnv rfl).1⟩

/-! ## Helper lemmas about the Join Engine -/

/-- Under pairwise-distinct right keys, filtering the right rows by a
key keeps at most the first find. -/
theorem filter_key_of_nodup {β K : Type} [DecidableEq K] (rk : β → K) (rs : List β)
    (h : (rs.map rk).Nodup) (k : K) :
    rs.filter (fun b => decide (rk b = k))
      = (rs.find? (fun b => decide (rk b = k))).toList := by
  induction rs with
  | nil => rfl
  | cons b t ih =>
    rw [List.map_cons, List.nodup_cons] at h
    by_cases hk : rk b = k
    · rw [List.filter_cons_of_pos (by simpa using hk),
        List.find?_cons_of_pos _ (by simpa using hk)]
      have htf : t.filter (fun x => decide (rk x = k)) = [] := by
        rw [List.filter_eq_nil_iff]
        intro c hc
        simp only [decide_eq_true_eq]
        intro hck
        exact h.1 (by rw [hk, ← hck]; exact List.mem_map_of_mem rk hc)
      rw [htf]
      rfl
    · rw [List.filter_cons_of_neg (by simpa using hk),
        List.find?_cons_of_neg _ (by simpa using hk)]
      exact ih h.2

/-- Under pairwise-distinct right keys, the matches for one left key are
exactly the (possibly failed) first find. -/
theorem mergeMatches_of_nodup {β K : Type} [DecidableEq K] (rk : β → K) (rs : List β)
    (h : (rs.map rk).Nodup) (k : K) :
    mergeMatches rk rs k = [rs.find? (fun b => decide (rk b = k))] := by
  unfold mergeMatches
  rw [filter_key_of_nodup rk rs h k]
  cases rs.find? (fun b => decide (rk b = k)) <;> rfl

/-- Projecting the first components out of a pairing map recovers the
input list. -/
theorem map_fst_map_pair {α γ : Type} (g : α → γ) (ls : List α) :
    (ls.map (fun a => (a, g a))).map Prod.fst = ls := by
  induction ls with
  | nil => rfl
  | cons a t ih => simp [ih]

/-- Flat-mapping a one-element producer is a map. -/
theorem flatMap_singleton_eq_map {α γ : Type} (f : α → γ) (ls : List α) :
    ls.flatMap (fun a => [f a]) = ls.map f := by
  induction ls with
  | nil => rfl
  | cons a t ih => simp [ih]

/-- C3 counterexample: with a duplicated key on the right side, the left
merge of a one-row left input has two rows, so the output does not have
exactly one row per left row. -/
theorem c3_join_counterexample :
    (joinLeft [(1 : Nat)] [(1 : Nat), 1] id id).length ≠ [(1 : Nat)].length := by
  decide

/-- C3 amended: for non-empty inputs whose right key values are pairwise
distinct, the left merge pairs each left row, in input order and exactly
once, with its unique right match (null when there is none): it equals
the map of `find?` over the left rows, has exactly the left length, and
projects back to the left input. -/
theorem c3_join_left_unique_keys {α β K : Type} [DecidableEq K] (ls : List α) (rs : List β)
    (lk : α → K) (rk : β → K) (hls : ls ≠ []) (hrs : rs ≠ [])
    (hnd : (rs.map rk).Nodup) :
    joinLeft ls rs lk rk
      = ls.map (fun a => (a, rs.find? (fun b => decide (rk b = lk a))))
    ∧ (joinLeft ls rs lk rk).length = ls.length
    ∧ (joinLeft ls rs lk rk).map Prod.fst = ls := by
  have hmain : joinLeft ls rs lk rk
      = ls.map (fun a => (a, rs.find? (fun b => decide (rk b = lk a)))) := by
    unfold joinLeft
    rw [if_neg (by simp [hls, hrs])]
    unfold pdMergeLeft
    have hm : ∀ a : α, (mergeMatches rk rs (lk a)).map (fun ob => (a, ob))
        = [(a, rs.find? (fun b => decide (rk b = lk a)))] := by
      intro a
      rw [mergeMatches_of_nodup rk rs hnd (lk a)]
      rfl
    simp only [hm]
    exact flatMap_singleton_eq_map _ ls
  refine ⟨hmain, ?_, ?_⟩
  · rw [hmain, List.length_map]
  · rw [hmain]
    exact map_fst_map_pair _ ls

/-- Witness for the amended C3 on concrete one-row-left, two-row-right
inputs with distinct right keys. -/
theorem c3_join_left_unique_keys_witness :
    ([sampleCompetitor1, sampleCompetitor2].map Competitor.competitor_id).Nodup
    ∧ (joinLeft [sampleRanking1] [sampleCompetitor1, sampleCompetitor2]
        Ranking.competitor_id Competitor.competitor_id).length = 1 :=
  ⟨by decide,
    (c3_join_left_unique_keys [sampleRanking1] [sampleCompetitor1, sampleCompetitor2]
      Ranking.competitor_id Competitor.competitor_id
      (by decide) (by decide) (by decide)).2.1⟩

end Tennis
